import Mathlib

/-!
Verification development for the CryptoMentor repository
(Strategy Confluence & Explanation Engine and its web frontend).

The repository's `src/` tree contains the Next.js frontend only; the
backend engine (IndicatorEngine, SupportResistanceDetector, the four
StrategyEvaluators, ConfluenceAggregator, ExplanationGenerator,
PostTradeAnalyzer) is consumed through its HTTP/WebSocket interface and is
not part of the checked-in sources.  Definitions for those components are
therefore modelled from the specification (each such definition says so in
its doc comment); all frontend definitions are translated directly from
the TypeScript sources, with the file and lines cited.

Prices and indicator values are embedded as rationals (`ℚ`); absent
("null") values are `Option`; JavaScript `Map`/`Set` state is embedded as
total lookup functions resp. `Finset`s.
-/

namespace CryptoMentor

/-! ### WebSocket client (src/frontend/src/lib/websocket.ts)

`WSClient.listeners : Map<string, EventCallback[]>` is embedded as the
total lookup view `String → List ℕ` (the JS code always reads it through
`this.listeners.get(event) || []`, so the map's key set is not
observable); callbacks are identified by a numeric id, standing for JS
function identity. -/

/-- Lookup view of `WSClient.listeners`: for each event name, the list of
registered callback ids in registration order. -/
def Listeners : Type := String → List ℕ

/-- A fresh client has no listeners (`new Map()`). -/
def emptyListeners : Listeners := fun _ => []

/-- `WSClient.on` (websocket.ts lines 63-67): reads the existing list
(`get(event) || []`), pushes the callback at the end, stores it back. -/
def wsOn (m : Listeners) (event : String) (cb : ℕ) : Listeners :=
  fun e => if e = event then m event ++ [cb] else m e

/-- `WSClient.off` (websocket.ts lines 69-75): stores back the existing
list with every occurrence of the callback filtered out. -/
def wsOff (m : Listeners) (event : String) (cb : ℕ) : Listeners :=
  fun e => if e = event then (m event).filter (fun c => c ≠ cb) else m e

/-- An incoming WebSocket message after successful `JSON.parse`:
`msg.event` selects the callback list, `msg.data` is the payload
(kept opaque as a string). -/
structure WSMessage where
  event : String
  data : String

/-- `ws.onmessage` (websocket.ts lines 25-33): `JSON.parse` either fails
(modelled as `none`; the `catch` ignores the message, so no callback runs)
or yields a message, and every callback registered under `msg.event` is
invoked in order.  The result is the ordered list of invoked callback ids. -/
def onmessageDispatch (m : Listeners) (parsed : Option WSMessage) : List ℕ :=
  match parsed with
  | none => []
  | some msg => m msg.event

/-! ### Dashboard registration (src/unnamed/part_003, `Dashboard`) -/

/-- The event names the dashboard subscribes to in its mount effect
(part_003 lines 79-85): `wsClient.on("price_update", …)` then
`wsClient.on("new_trade", …)`, each with a data-refresh callback. -/
def dashboardRegisteredEvents : List String := ["price_update", "new_trade"]

/-- The listener state after the dashboard's mount effect runs on a fresh
client, registering the data-refresh callback `cb` for each of the two
event names (part_003 lines 79-85). -/
def dashboardListeners (cb : ℕ) : Listeners :=
  wsOn (wsOn emptyListeners "price_update" cb) "new_trade" cb

/-! ### Confluence score display (frontend) -/

/-- `ConfidenceBadge` (src/frontend/src/components/TradeLog.tsx lines
98-113): the badge body renders the literal JSX text `{score}/5`. -/
def confidenceBadgeText (score : ℕ) : String := s!"{score}/5"

/-- Trade detail page (src/frontend/src/app/trades/[id]/page.tsx line
133): renders `Confluence: {trade.confluence_score}/5`. -/
def tradeDetailConfluenceText (score : ℕ) : String := s!"{score}/5"

/-! ### Chart live tick update (src/unnamed/part_006, lines 320-334) -/

/-- The candlestick point tracked in `lastCandleRef`
(`{ time, open, high, low, close }`). -/
structure ChartCandle where
  time : ℕ
  «open» : ℚ
  high : ℚ
  low : ℚ
  close : ℚ
  deriving DecidableEq, Repr

/-- The live tick effect (part_006 lines 320-334): from the tracked last
candle `lc` and a tick price, builds the updated candle
`{ time: lc.time, open: lc.open, high: max(lc.high, price),
low: min(lc.low, price), close: price }`. -/
def tickUpdate (lc : ChartCandle) (price : ℚ) : ChartCandle :=
  { time := lc.time
    «open» := lc.«open»
    high := max lc.high price
    low := min lc.low price
    close := price }

/-! ### Chart overlay set (src/unnamed/part_006, lines 62-119) -/

/-- The keys of `OVERLAY_CONFIGS` (part_006 lines 62-70). -/
inductive OverlayKey
  | ema_9 | ema_21 | ema_50 | ema_200 | bb | support | resistance
  deriving DecidableEq, Repr

/-- `toggleOverlay` (part_006 lines 102-109): copies the active set and
deletes the key if present, else adds it. -/
def toggleOverlay (key : OverlayKey) (s : Finset OverlayKey) : Finset OverlayKey :=
  if key ∈ s then s.erase key else insert key s

/-- `ensureOverlay` (part_006 lines 112-119): returns the previous set
unchanged when the key is already active, else adds the key. -/
def ensureOverlay (key : OverlayKey) (s : Finset OverlayKey) : Finset OverlayKey :=
  if key ∈ s then s else insert key s

/-! ### Overlay line renderer (src/unnamed/part_006, `addLine`, lines 228-253)

`addLine` loops `i` over the timestamps and pushes `{time, value}` only
when `values[i] !== null && values[i] !== undefined`; an exhausted values
array reads as `undefined` and is skipped, so null/short series never
throw. -/

/-- The data points `addLine` collects: one `(time, value)` pair per
index whose value is non-null (a shorter values list reads `undefined`
past its end and is likewise skipped). -/
def plotPoints : List ℚ → List (Option ℚ) → List (ℚ × ℚ)
  | [], _ => []
  | _ :: ts, [] => plotPoints ts []
  | _ :: ts, none :: vs => plotPoints ts vs
  | t :: ts, some v :: vs => (t, v) :: plotPoints ts vs

/-! ### IndicatorEngine (modelled from the spec)

The backend IndicatorEngine is not part of `src/` (the repository ships
the frontend only); the definitions below are modelled from spec §4.1 and
§3.  Division in `ℚ` is total (`x / 0 = 0`); the claims proved below
concern only the warm-up region, where no value is computed at all. -/

/-- Modelled from the spec: a price bar of the backend's candle history
(spec §3, `Candle`). -/
structure Candle where
  timestamp : ℕ
  «open» : ℚ
  high : ℚ
  low : ℚ
  close : ℚ
  volume : ℚ
  deriving DecidableEq, Repr

/-- Simple average of a list of values (used to seed EMA/Wilder runs and
as the Bollinger middle band). -/
def sma (vals : List ℚ) : ℚ := vals.sum / vals.length

/-- EMA smoothing factor `2 / (period + 1)`. -/
def emaAlpha (p : ℕ) : ℚ := 2 / (p + 1)

/-- Modelled from the spec: EMA(p) at candle index `i` (spec §4.1),
"seeded by a simple average of the first *period* candles; undefined
before index = period−1" — and absent whenever the history does not reach
index `i`.  After the seed at index `p−1`, the standard recurrence
`ema = α·close + (1−α)·ema'` is run over the remaining closes. -/
def emaVal (p : ℕ) (closes : List ℚ) (i : ℕ) : Option ℚ :=
  if p = 0 ∨ i + 1 < p ∨ closes.length ≤ i then none
  else some (((closes.take (i + 1)).drop p).foldl
    (fun acc c => emaAlpha p * c + (1 - emaAlpha p) * acc)
    (sma (closes.take p)))

/-- Wilder smoothing of a derived series `xs` at series index `i`:
seeded by the simple average of the first `p` entries (available at index
`p−1`), then `acc ↦ (acc·(p−1) + x) / p`; absent below the seed index or
past the series' length. -/
def wilder (p : ℕ) (xs : List ℚ) (i : ℕ) : Option ℚ :=
  if p = 0 ∨ i + 1 < p ∨ xs.length ≤ i then none
  else some (((xs.take (i + 1)).drop p).foldl
    (fun acc x => (acc * ((p : ℚ) - 1) + x) / p)
    (sma (xs.take p)))

/-- Per-period upward moves of the close series (`gains j` belongs to
candle index `j+1`). -/
def gains (closes : List ℚ) : List ℚ :=
  (closes.drop 1).zipWith (fun c prev => max (c - prev) 0) closes

/-- Per-period downward moves of the close series. -/
def losses (closes : List ℚ) : List ℚ :=
  (closes.drop 1).zipWith (fun c prev => max (prev - c) 0) closes

/-- RSI body from the Wilder-smoothed average gain/loss:
`100 − 100 / (1 + RS)` with `RS = avgGain / avgLoss`. -/
def rsiFromAvgs (ag al : ℚ) : ℚ := 100 - 100 / (1 + ag / al)

/-- Modelled from the spec: RSI(14) at candle index `i` (spec §4.1),
"Wilder's smoothing of average gain/loss; undefined for indices < 14".
Candle index `j+1` corresponds to change index `j`. -/
def rsiVal (closes : List ℚ) (i : ℕ) : Option ℚ :=
  match i with
  | 0 => none
  | j + 1 =>
    match wilder 14 (gains closes) j, wilder 14 (losses closes) j with
    | some ag, some al => some (rsiFromAvgs ag al)
    | _, _ => none

/-- Modelled from the spec: MACD line at index `i` (spec §4.1),
`EMA12 − EMA26`, "undefined until EMA26 is defined". -/
def macdVal (closes : List ℚ) (i : ℕ) : Option ℚ :=
  match emaVal 12 closes i, emaVal 26 closes i with
  | some a, some b => some (a - b)
  | _, _ => none

/-- The defined prefix of the MACD line, as a plain series (its entry `k`
is the MACD value at the candle index `macdStart + k`). -/
def macdLine (closes : List ℚ) : List ℚ :=
  (List.range closes.length).filterMap (macdVal closes)

/-- First candle index at which EMA26 (hence the MACD line) can be
defined. -/
def macdStart : ℕ := 25

/-- Modelled from the spec: MACD signal line, "EMA9 of macd line"
(spec §4.1), computed over the defined MACD values and re-aligned to
candle indices; absent before the MACD line starts. -/
def signalVal (closes : List ℚ) (i : ℕ) : Option ℚ :=
  if i < macdStart then none else emaVal 9 (macdLine closes) (i - macdStart)

/-- Modelled from the spec: MACD histogram, `macd − signal` (spec §4.1),
absent while either component is. -/
def histVal (closes : List ℚ) (i : ℕ) : Option ℚ :=
  match macdVal closes i, signalVal closes i with
  | some m, some s => some (m - s)
  | _, _ => none

/-- True range of candle index `j+1` against the previous close. -/
def trList (cs : List Candle) : List ℚ :=
  (cs.drop 1).zipWith
    (fun c prev => max (c.high - c.low) (max |c.high - prev.close| |c.low - prev.close|)) cs

/-- Positive directional movement of candle index `j+1`. -/
def plusDMList (cs : List Candle) : List ℚ :=
  (cs.drop 1).zipWith
    (fun c prev =>
      if prev.low - c.low < c.high - prev.high ∧ 0 < c.high - prev.high
      then c.high - prev.high else 0) cs

/-- Negative directional movement of candle index `j+1`. -/
def minusDMList (cs : List Candle) : List ℚ :=
  (cs.drop 1).zipWith
    (fun c prev =>
      if c.high - prev.high < prev.low - c.low ∧ 0 < prev.low - c.low
      then prev.low - c.low else 0) cs

/-- DX at directional-movement index `j` (candle index `j+1`), from the
Wilder-smoothed ±DM and true range:
`100·|+DI − −DI| / (+DI + −DI)`; absent during the smoothing warm-up. -/
def dxVal (cs : List Candle) (j : ℕ) : Option ℚ :=
  match wilder 14 (plusDMList cs) j, wilder 14 (minusDMList cs) j,
      wilder 14 (trList cs) j with
  | some pdm, some mdm, some tr =>
    some (100 * |100 * pdm / tr - 100 * mdm / tr| / (100 * pdm / tr + 100 * mdm / tr))
  | _, _, _ => none

/-- The defined prefix of the DX series (its entry `k` is the DX value at
candle index `14 + k`). -/
def dxList (cs : List Candle) : List ℚ :=
  (List.range' 13 (cs.length - 14)).filterMap (dxVal cs)

/-- Modelled from the spec: ADX(14) at candle index `i` (spec §4.1),
"Wilder's directional movement average; undefined before index 14×2
(needs smoothed +DM/−DM warm-up)": Wilder smoothing of the DX series,
explicitly absent below index 28. -/
def adxVal (cs : List Candle) (i : ℕ) : Option ℚ :=
  if i < 28 then none else wilder 14 (dxList cs) (i - 14)

/-- The 20-close window ending at index `i`. -/
def bbWindow (closes : List ℚ) (i : ℕ) : List ℚ :=
  (closes.take (i + 1)).drop (i + 1 - 20)

/-- Population variance of a window around its simple average (the square
root of this quantity is the rolling standard deviation). -/
def windowVariance (vals : List ℚ) : ℚ :=
  sma (vals.map (fun v => (v - sma vals) ^ 2))

/-- Modelled from the spec: Bollinger middle band, "SMA20 of close;
undefined before index 19" (spec §4.1). -/
def bbMiddle (closes : List ℚ) (i : ℕ) : Option ℚ :=
  if i + 1 < 20 ∨ closes.length ≤ i then none
  else some (sma (bbWindow closes i))

/-- Modelled from the spec: Bollinger upper band, `middle + 2·stddev20`
(spec §4.1).  The square root on `ℚ` is abstracted as the parameter
`sqrtFn`; the warm-up claims proved below hold for every such function. -/
def bbUpper (sqrtFn : ℚ → ℚ) (closes : List ℚ) (i : ℕ) : Option ℚ :=
  if i + 1 < 20 ∨ closes.length ≤ i then none
  else some (sma (bbWindow closes i) + 2 * sqrtFn (windowVariance (bbWindow closes i)))

/-- Modelled from the spec: Bollinger lower band, `middle − 2·stddev20`
(spec §4.1). -/
def bbLower (sqrtFn : ℚ → ℚ) (closes : List ℚ) (i : ℕ) : Option ℚ :=
  if i + 1 < 20 ∨ closes.length ≤ i then none
  else some (sma (bbWindow closes i) - 2 * sqrtFn (windowVariance (bbWindow closes i)))

/-- The close series of a candle history. -/
def closesOf (cs : List Candle) : List ℚ := cs.map Candle.close

/-! ### ConfluenceAggregator (modelled from the spec)

The backend aggregator is likewise absent from `src/`; the definitions
follow spec §4.4, §4.3 and §3. -/

/-- Modelled from the spec: a strategy's directional vote (spec §3,
`StrategySignal.direction ∈ {BUY, SELL, NONE}`). -/
inductive Direction
  | BUY | SELL | NONE
  deriving DecidableEq, Repr

/-- Modelled from the spec: the output of one StrategyEvaluator (spec §3,
`StrategySignal`); `indicator_snapshot` is a key/value map of the
numeric values cited. -/
structure StrategySignal where
  strategy_name : String
  direction : Direction
  confidence : ℚ
  reasons : List String
  indicator_snapshot : List (String × ℚ)
  deriving DecidableEq, Repr

/-- Modelled from the spec: the per-cycle configuration snapshot's
`enabled` flag for each of the four fixed strategies (spec §4.3, §6
`StrategyConfigStore`). -/
structure StrategyConfig where
  technicalEnabled : Bool
  priceActionEnabled : Bool
  trendEnabled : Bool
  scalpingEnabled : Bool
  deriving DecidableEq, Repr

/-- Number of enabled strategies in a configuration snapshot. -/
def enabledCount (cfg : StrategyConfig) : ℕ :=
  cfg.technicalEnabled.toNat + cfg.priceActionEnabled.toNat
    + cfg.trendEnabled.toNat + cfg.scalpingEnabled.toNat

/-- Modelled from the spec: the signals the aggregator tallies in one
cycle — each enabled strategy's signal, disabled strategies excluded
(spec §4.4 "Runs every *enabled* strategy against the same
MarketSnapshot"). -/
def enabledSignals (cfg : StrategyConfig)
    (tec pa tr sc : StrategySignal) : List StrategySignal :=
  (if cfg.technicalEnabled then [tec] else [])
    ++ (if cfg.priceActionEnabled then [pa] else [])
    ++ (if cfg.trendEnabled then [tr] else [])
    ++ (if cfg.scalpingEnabled then [sc] else [])

/-- Votes for a direction among a cycle's signals (spec §4.4: tallies by
direction, abstentions excluded by counting only the given direction). -/
def voteCount (d : Direction) (sigs : List StrategySignal) : ℕ :=
  (sigs.filter (fun s => s.direction = d)).length

/-- Modelled from the spec: the aggregated decision (spec §3,
`ConfluenceDecision`, trimmed to the fields the verified claims use). -/
structure ConfluenceDecision where
  direction : Direction
  score : ℕ
  contributing_signals : List StrategySignal
  deriving DecidableEq, Repr

/-- Modelled from the spec: the aggregation step (spec §4.4).  The
winning direction is the one with strictly more votes than the other; a
tie for the maximum (including BUY/SELL ties) yields NONE with no
priority fallback.  `score` is the winning direction's vote count, and
when `score < minimum_confluence` the decision is forced to NONE (the
score itself is kept, cf. spec §8 scenario 5).  `contributing_signals`
are the signals that voted the final direction. -/
def aggregate (minConf : ℕ) (sigs : List StrategySignal) : ConfluenceDecision :=
  let b := voteCount Direction.BUY sigs
  let s := voteCount Direction.SELL sigs
  let winner := if s < b then Direction.BUY
    else if b < s then Direction.SELL else Direction.NONE
  let score := if s < b then b else if b < s then s else 0
  let dir := if minConf ≤ score then winner else Direction.NONE
  { direction := dir
    score := score
    contributing_signals :=
      if dir = Direction.NONE then []
      else sigs.filter (fun x => x.direction = dir) }

/-- Modelled from the spec: the Trade the external ledger seeds from an
actionable decision (spec §3, `Trade`, trimmed to the fields the claims
use). -/
structure Trade where
  side : Direction
  confluence_score : ℕ
  deriving DecidableEq, Repr

/-- Modelled from the spec: handing a decision to the ledger opens a
Trade only for an actionable (non-NONE) decision (spec §4.4, §8 "no
Trade is created"). -/
def tradeFromDecision (d : ConfluenceDecision) : Option Trade :=
  if d.direction = Direction.NONE then none
  else some { side := d.direction, confluence_score := d.score }

/-- Modelled from the spec: one full aggregation cycle from a
configuration snapshot and the four strategies' signals. -/
def runCycle (minConf : ℕ) (cfg : StrategyConfig)
    (tec pa tr sc : StrategySignal) : ConfluenceDecision :=
  aggregate minConf (enabledSignals cfg tec pa tr sc)

/-! ### ExplanationGenerator (modelled from the spec) -/

/-- Modelled from the spec: the fixed priority order in which
contributing signals' reasons are concatenated (spec §4.5 "(Trend,
Technical, PriceAction, Scalping)"). -/
def priorityOrder : List String := ["Trend", "Technical", "PriceAction", "Scalping"]

/-- Contributing signals rearranged into the fixed priority order
(spec §4.5: deterministic regardless of evaluation order). -/
def orderedContributing (sigs : List StrategySignal) : List StrategySignal :=
  (priorityOrder.map (fun name => sigs.filter (fun s => s.strategy_name = name))).flatten

/-- Modelled from the spec: the structured explanation attached to a
Trade at creation (spec §3, `Explanation`; `risk_reward` stands for the
spec's risk/reward field). -/
structure Explanation where
  full_text : String
  reasons : List String
  learning_points : List String
  risk_reward : Option ℚ
  indicators : List (String × ℚ)
  deriving DecidableEq, Repr

/-- The reason list of the generated explanation: each contributing
signal's reasons, concatenated in the fixed priority order (spec §4.5). -/
def explanationReasons (d : ConfluenceDecision) : List String :=
  ((orderedContributing d.contributing_signals).map StrategySignal.reasons).flatten

/-- Modelled from the spec: the explanation generator (spec §4.5), a
pure function of the decision, a concept glossary and the pair name.
`learning_points` are glossary lookups for the distinct indicator keys
referenced across contributing signals, deduplicated in first-seen
order; `full_text` is a fixed template. -/
def generateExplanation (glossary : String → Option String) (pair : String)
    (rr : Option ℚ) (d : ConfluenceDecision) : Explanation :=
  let ordered := orderedContributing d.contributing_signals
  let keys := ((ordered.map (fun s => s.indicator_snapshot.map Prod.fst)).flatten).dedup
  { full_text := pair ++ " " ++ (match d.direction with
      | Direction.BUY => "BUY" | Direction.SELL => "SELL" | Direction.NONE => "NONE")
      ++ " (" ++ ((ordered.map StrategySignal.strategy_name).headD "") ++ "): "
      ++ String.intercalate "; " (explanationReasons d)
    reasons := explanationReasons d
    learning_points := keys.filterMap glossary
    risk_reward := rr
    indicators := (ordered.map StrategySignal.indicator_snapshot).flatten }

/-! ### SupportResistanceDetector (modelled from the spec) -/

/-- Level kind (spec §3, `SRLevel.type ∈ {support, resistance}`). -/
inductive SRType
  | support | resistance
  deriving DecidableEq, Repr

/-- Modelled from the spec: a detected level (spec §3, `SRLevel`). -/
structure SRLevel where
  price : ℚ
  type : SRType
  strength : ℕ
  touches : ℕ
  deriving DecidableEq, Repr

/-- One clustering step over ascending points (spec §4.2): a point
within `tol` of the current (nearest, since the scan is ascending)
cluster's base price merges into it; otherwise it starts a new cluster.
Clusters are kept newest-first as `(base price, member points)`. -/
def clusterFold (tol : ℚ) (acc : List (ℚ × List ℚ)) (p : ℚ) : List (ℚ × List ℚ) :=
  match acc with
  | [] => [(p, [p])]
  | (base, pts) :: rest =>
    if p - base ≤ tol then (base, p :: pts) :: rest
    else (p, [p]) :: (base, pts) :: rest

/-- Modelled from the spec: the clustering pass (spec §4.2) — the swing
prices are put in ascending order and folded into tolerance clusters. -/
def clusters (tol : ℚ) (points : List ℚ) : List (ℚ × List ℚ) :=
  (points.mergeSort (fun a b => a ≤ b)).foldl (clusterFold tol) []

/-- Modelled from the spec: the SupportResistanceDetector (spec §4.2).
Each cluster becomes one level: price = the cluster's mean, `touches` =
point count, `strength` = min(touches, 5), `type` = support below the
current close, else resistance. -/
def srDetect (tol close : ℚ) (points : List ℚ) : List SRLevel :=
  ((clusters tol points).reverse).map (fun c =>
    { price := sma c.2
      type := if sma c.2 < close then SRType.support else SRType.resistance
      strength := min c.2.length 5
      touches := c.2.length })

/-- A concrete price bar used to instantiate the warm-up claims. -/
def demoCandle : Candle := ⟨0, 100, 101, 99, 100, 5⟩

/-- A 50-candle history (spec §8 scenario 3: 50 candles, every `ema_200`
entry absent). -/
def demoHistory : List Candle := List.replicate 50 demoCandle

/-- A 10-candle history, shorter than every indicator's warm-up. -/
def demoShort : List Candle := List.replicate 10 demoCandle

/-! ## Theorems -/

/-- C3 (counterexample): the claim "the confluence score display does not
use the constant denominator 5" is false on the code — at score 3 the
trade-log badge and the trade detail page both render the literal
"3/5", with the fixed denominator 5 (TradeLog.tsx line 110,
trades/[id]/page.tsx line 133). -/
theorem confluence_display_shows_three_of_five :
    confidenceBadgeText 3 = "3/5" ∧ tradeDetailConfluenceText 3 = "3/5" :=
  ⟨rfl, rfl⟩

/-- C3 (amended): for every rendered trade, the UI displays the
confluence score over the fixed denominator 5 — the badge and the detail
page render `score` followed by "/5", independent of how many strategies
are enabled. -/
theorem confluence_display_fixed_denominator_five (score : ℕ) :
    confidenceBadgeText score = toString score ++ "/5"
      ∧ tradeDetailConfluenceText score = toString score ++ "/5" :=
  ⟨rfl, rfl⟩

/-- C6: the dashboard's push events are exactly "new_trade" and
"price_update" — its registration list contains precisely those two
names, the resulting listener state holds the refresh callback under
exactly those two events, and the WebSocket client's `onmessage` invokes
exactly the callbacks registered under a parsed message's event name
(an unparseable message invokes none and raises nothing). -/
theorem push_events_and_dispatch_exact :
    (∀ e, e ∈ dashboardRegisteredEvents ↔ e = "new_trade" ∨ e = "price_update")
      ∧ (∀ (cb : ℕ) (e : String),
          dashboardListeners cb e = if e ∈ dashboardRegisteredEvents then [cb] else [])
      ∧ (∀ (m : Listeners) (msg : WSMessage), onmessageDispatch m (some msg) = m msg.event)
      ∧ (∀ m : Listeners, onmessageDispatch m none = []) := by
  refine ⟨?_, ?_, fun _ _ => rfl, fun _ => rfl⟩
  · intro e
    simp [dashboardRegisteredEvents, or_comm]
  · intro cb e
    by_cases h₁ : e = "new_trade"
    · simp [dashboardListeners, wsOn, emptyListeners, dashboardRegisteredEvents, h₁]
    · by_cases h₂ : e = "price_update"
      · simp [dashboardListeners, wsOn, emptyListeners, dashboardRegisteredEvents, h₁, h₂]
      · simp [dashboardListeners, wsOn, emptyListeners, dashboardRegisteredEvents, h₁, h₂]

/-- C8: the chart's live tick update keeps the tracked candle's time and
open, sets close to the tick price, raises high to `max(high, price)`,
lowers low to `min(low, price)` — and therefore preserves OHLC
consistency (`low ≤ min(open, close)` and `max(open, close) ≤ high`). -/
theorem tick_update_fields_and_ohlc_consistency (lc : ChartCandle) (price : ℚ)
    (hlow : lc.low ≤ min lc.«open» lc.close)
    (hhigh : max lc.«open» lc.close ≤ lc.high) :
    (tickUpdate lc price).time = lc.time
      ∧ (tickUpdate lc price).«open» = lc.«open»
      ∧ (tickUpdate lc price).close = price
      ∧ (tickUpdate lc price).high = max lc.high price
      ∧ (tickUpdate lc price).low = min lc.low price
      ∧ (tickUpdate lc price).low
          ≤ min (tickUpdate lc price).«open» (tickUpdate lc price).close
      ∧ max (tickUpdate lc price).«open» (tickUpdate lc price).close
          ≤ (tickUpdate lc price).high := by
  refine ⟨rfl, rfl, rfl, rfl, rfl, ?_, ?_⟩
  · exact min_le_min (hlow.trans (min_le_left _ _)) le_rfl
  · exact max_le_max ((le_max_left _ _).trans hhigh) le_rfl

/-- Witness for C8 at the concrete candle (time 0, open 10, high 12,
low 9, close 11) and tick price 13. -/
theorem tick_update_witness :
    (tickUpdate ⟨0, 10, 12, 9, 11⟩ 13).time = (⟨0, 10, 12, 9, 11⟩ : ChartCandle).time
      ∧ (tickUpdate ⟨0, 10, 12, 9, 11⟩ 13).«open» = (⟨0, 10, 12, 9, 11⟩ : ChartCandle).«open»
      ∧ (tickUpdate ⟨0, 10, 12, 9, 11⟩ 13).close = 13
      ∧ (tickUpdate ⟨0, 10, 12, 9, 11⟩ 13).high = max (⟨0, 10, 12, 9, 11⟩ : ChartCandle).high 13
      ∧ (tickUpdate ⟨0, 10, 12, 9, 11⟩ 13).low = min (⟨0, 10, 12, 9, 11⟩ : ChartCandle).low 13
      ∧ (tickUpdate ⟨0, 10, 12, 9, 11⟩ 13).low
          ≤ min (tickUpdate ⟨0, 10, 12, 9, 11⟩ 13).«open» (tickUpdate ⟨0, 10, 12, 9, 11⟩ 13).close
      ∧ max (tickUpdate ⟨0, 10, 12, 9, 11⟩ 13).«open» (tickUpdate ⟨0, 10, 12, 9, 11⟩ 13).close
          ≤ (tickUpdate ⟨0, 10, 12, 9, 11⟩ 13).high :=
  tick_update_fields_and_ohlc_consistency ⟨0, 10, 12, 9, 11⟩ 13 (by decide) (by decide)

/-- C9: on the chart's active-overlay set, `toggleOverlay` is an
involution, `ensureOverlay` on an already-active key returns the set
unchanged, and `ensureOverlay` is idempotent. -/
theorem toggle_involutive_ensure_idempotent (s : Finset OverlayKey) (k : OverlayKey) :
    toggleOverlay k (toggleOverlay k s) = s
      ∧ (k ∈ s → ensureOverlay k s = s)
      ∧ ensureOverlay k (ensureOverlay k s) = ensureOverlay k s := by
  refine ⟨?_, fun h => by simp [ensureOverlay, h], ?_⟩
  · by_cases h : k ∈ s
    · simp [toggleOverlay, h, Finset.not_mem_erase, Finset.insert_erase]
    · simp [toggleOverlay, h, Finset.erase_insert]
  · by_cases h : k ∈ s
    · simp [ensureOverlay, h]
    · simp [ensureOverlay, h]

/-- Witness for C9 at the default active-overlay set and key `ema_50`
(inactive there) plus `ema_9` (active there, for the hypothesis-bearing
conjunct). -/
theorem toggle_ensure_witness :
    (toggleOverlay OverlayKey.ema_9
        (toggleOverlay OverlayKey.ema_9 {OverlayKey.ema_9, OverlayKey.bb})
      = {OverlayKey.ema_9, OverlayKey.bb})
      ∧ (ensureOverlay OverlayKey.ema_9 {OverlayKey.ema_9, OverlayKey.bb}
          = {OverlayKey.ema_9, OverlayKey.bb}) := by
  have h := toggle_involutive_ensure_idempotent {OverlayKey.ema_9, OverlayKey.bb} OverlayKey.ema_9
  exact ⟨h.1, h.2.1 (by decide)⟩

/-- C10: `off(event, cb)` leaves exactly the registrations under `event`
that are not `cb` and leaves every other event's callback list unchanged;
consequently, when `cb` was not registered under `event`, `on` followed
by `off` restores the listener state exactly. -/
theorem off_removes_exactly_and_on_off_roundtrip (m : Listeners) (e e' : String) (cb : ℕ) :
    (wsOff m e cb) e = (m e).filter (fun c => c ≠ cb)
      ∧ (e' ≠ e → (wsOff m e cb) e' = m e')
      ∧ (cb ∉ m e → wsOff (wsOn m e cb) e cb = m) := by
  refine ⟨by simp [wsOff], fun h => by simp [wsOff, h], fun h => ?_⟩
  funext x
  by_cases hx : x = e
  · subst hx
    have h1 : (m x).filter (fun c => decide (c ≠ cb)) = m x :=
      List.filter_eq_self.mpr (fun a ha => by
        simp only [decide_eq_true_eq, ne_eq]
        exact fun heq => h (heq ▸ ha))
    simp only [wsOff, wsOn, if_pos rfl, List.filter_append, h1]
    simp only [List.filter_eq_nil_iff, decide_eq_true_eq, ne_eq, not_not,
      List.mem_singleton]
    simp
    exact fun a ha heq => h (heq ▸ ha)
  · simp [wsOff, wsOn, hx]

/-- Witness for C10: with one listener for "price_update" and none for
"new_trade", removing callback 7 keeps callback 3, leaves the other
event untouched, and an on/off round trip of callback 7 under
"new_trade" restores the original listener state. -/
theorem off_on_roundtrip_witness :
    (wsOff (wsOn emptyListeners "price_update" 3) "new_trade" 7) "new_trade"
        = ((wsOn emptyListeners "price_update" 3) "new_trade").filter (fun c => c ≠ 7)
      ∧ ((wsOff (wsOn emptyListeners "price_update" 3) "new_trade" 7) "price_update"
          = (wsOn emptyListeners "price_update" 3) "price_update")
      ∧ (wsOff (wsOn (wsOn emptyListeners "price_update" 3) "new_trade" 7) "new_trade" 7
          = wsOn emptyListeners "price_update" 3) := by
  have h := off_removes_exactly_and_on_off_roundtrip
    (wsOn emptyListeners "price_update" 3) "new_trade" "price_update" 7
  exact ⟨h.1, h.2.1 (by decide), h.2.2 (by simp [wsOn, emptyListeners])⟩

/-- The list of tallied signals in a cycle has one entry per enabled
strategy. -/
theorem length_enabledSignals (cfg : StrategyConfig) (tec pa tr sc : StrategySignal) :
    (enabledSignals cfg tec pa tr sc).length = enabledCount cfg := by
  rcases cfg with ⟨t, p, r, s⟩
  cases t <;> cases p <;> cases r <;> cases s <;> rfl

/-- C1: whenever the vote counts of BUY and SELL tie for the maximum
among the enabled strategies' signals (including the BUY/SELL tie), the
cycle's decision direction is NONE and no Trade is created — no priority
order ever resolves a tie. -/
theorem confluence_tie_yields_none_and_no_trade (minConf : ℕ) (cfg : StrategyConfig)
    (tec pa tr sc : StrategySignal)
    (h : voteCount Direction.BUY (enabledSignals cfg tec pa tr sc)
      = voteCount Direction.SELL (enabledSignals cfg tec pa tr sc)) :
    (runCycle minConf cfg tec pa tr sc).direction = Direction.NONE
      ∧ tradeFromDecision (runCycle minConf cfg tec pa tr sc) = none := by
  have hdir : (runCycle minConf cfg tec pa tr sc).direction = Direction.NONE := by
    simp [runCycle, aggregate, h, lt_irrefl]
  exact ⟨hdir, by simp [tradeFromDecision, hdir]⟩

/-- Witness for C1: all four strategies enabled, Technical votes BUY,
PriceAction votes SELL, Trend and Scalping abstain — a 1-1 BUY/SELL tie
gives direction NONE and no Trade. -/
theorem confluence_tie_witness :
    (runCycle 1 ⟨true, true, true, true⟩
        ⟨"Technical", Direction.BUY, 1, ["RSI oversold"], []⟩
        ⟨"PriceAction", Direction.SELL, 1, ["bearish engulfing"], []⟩
        ⟨"Trend", Direction.NONE, 0, [], []⟩
        ⟨"Scalping", Direction.NONE, 0, [], []⟩).direction = Direction.NONE
      ∧ tradeFromDecision (runCycle 1 ⟨true, true, true, true⟩
          ⟨"Technical", Direction.BUY, 1, ["RSI oversold"], []⟩
          ⟨"PriceAction", Direction.SELL, 1, ["bearish engulfing"], []⟩
          ⟨"Trend", Direction.NONE, 0, [], []⟩
          ⟨"Scalping", Direction.NONE, 0, [], []⟩) = none :=
  confluence_tie_yields_none_and_no_trade 1 ⟨true, true, true, true⟩
    ⟨"Technical", Direction.BUY, 1, ["RSI oversold"], []⟩
    ⟨"PriceAction", Direction.SELL, 1, ["bearish engulfing"], []⟩
    ⟨"Trend", Direction.NONE, 0, [], []⟩
    ⟨"Scalping", Direction.NONE, 0, [], []⟩ (by decide)

/-- C2: in every cycle the decision's score lies between 0 and the
number of enabled strategies in that cycle's configuration, and at most
4 strategies can be enabled — the bound is the enabled count, not a
fixed constant. -/
theorem confluence_score_bounded_by_enabled_count (minConf : ℕ) (cfg : StrategyConfig)
    (tec pa tr sc : StrategySignal) :
    0 ≤ (runCycle minConf cfg tec pa tr sc).score
      ∧ (runCycle minConf cfg tec pa tr sc).score ≤ enabledCount cfg
      ∧ enabledCount cfg ≤ 4 := by
  refine ⟨Nat.zero_le _, ?_, ?_⟩
  · rw [← length_enabledSignals cfg tec pa tr sc]
    have hb := List.length_filter_le
      (fun s => decide (s.direction = Direction.BUY)) (enabledSignals cfg tec pa tr sc)
    have hs := List.length_filter_le
      (fun s => decide (s.direction = Direction.SELL)) (enabledSignals cfg tec pa tr sc)
    simp only [runCycle, aggregate, voteCount]
    split
    · exact hb
    · split
      · exact hs
      · exact Nat.zero_le _
  · rcases cfg with ⟨t, p, r, s⟩
    cases t <;> cases p <;> cases r <;> cases s <;> decide

/-- Two permutations of the same points sort to the same ascending
list. -/
theorem mergeSortEqOfPerm {l₁ l₂ : List ℚ} (h : l₁.Perm l₂) :
    l₁.mergeSort (fun a b => a ≤ b) = l₂.mergeSort (fun a b => a ≤ b) :=
  List.eq_of_perm_of_sorted
    (((List.mergeSort_perm l₁ _).trans h).trans (List.mergeSort_perm l₂ _).symm)
    (List.sorted_mergeSort' l₁) (List.sorted_mergeSort' l₂)

/-- C7: the SupportResistanceDetector is deterministic and
order-independent — re-running the clustering on the same multiset of
swing points (any scan order, i.e. any permutation of the point list)
yields the identical list of levels. -/
theorem sr_levels_order_independent (tol close : ℚ) (l₁ l₂ : List ℚ)
    (h : l₁.Perm l₂) :
    srDetect tol close l₁ = srDetect tol close l₂ := by
  unfold srDetect clusters
  rw [mergeSortEqOfPerm h]

/-- Witness for C7: scanning the points 100, 101, 103 in two different
orders produces the same levels. -/
theorem sr_levels_witness :
    srDetect 2 102 [100, 101, 103] = srDetect 2 102 [103, 100, 101] :=
  sr_levels_order_independent 2 102 [100, 101, 103] [103, 100, 101] (by decide)

/-- A contributing signal whose strategy name is one of the four fixed
names appears in the priority-ordered rearrangement. -/
theorem mem_orderedContributing {x : StrategySignal} {c : List StrategySignal}
    (hx : x ∈ c) (hn : x.strategy_name ∈ priorityOrder) : x ∈ orderedContributing c := by
  simp only [orderedContributing, List.mem_flatten, List.mem_map]
  exact ⟨c.filter (fun s => s.strategy_name = x.strategy_name),
    ⟨x.strategy_name, hn, rfl⟩, by simp [hx]⟩

/-- If some contributing signal with one of the fixed strategy names has
a non-empty reason list, the generated reason list is non-empty. -/
theorem explanationReasons_ne_nil_of_mem {d : ConfluenceDecision} {x : StrategySignal}
    (hx : x ∈ d.contributing_signals) (hn : x.strategy_name ∈ priorityOrder)
    (hr : x.reasons ≠ []) : explanationReasons d ≠ [] := by
  intro hnil
  rw [explanationReasons, List.flatten_eq_nil_iff] at hnil
  exact hr (hnil x.reasons (List.mem_map.mpr ⟨x, mem_orderedContributing hx hn, rfl⟩))

/-- C4: for the explanation generated from a cycle's decision, the
reason list is non-empty exactly when the decision's direction is not
NONE.  The hypotheses record the strategy contract of spec §4.3: each
signal comes from one of the four fixed strategies and a non-abstaining
signal cites at least one reason. -/
theorem explanation_reasons_nonempty_iff_direction (minConf : ℕ)
    (sigs : List StrategySignal)
    (hnames : ∀ s ∈ sigs, s.strategy_name ∈ priorityOrder)
    (hreasons : ∀ s ∈ sigs, s.direction ≠ Direction.NONE → s.reasons ≠ []) :
    explanationReasons (aggregate minConf sigs) ≠ []
      ↔ (aggregate minConf sigs).direction ≠ Direction.NONE := by
  by_cases h1 : voteCount Direction.SELL sigs < voteCount Direction.BUY sigs
  · by_cases hm : minConf ≤ voteCount Direction.BUY sigs
    · have hdir : (aggregate minConf sigs).direction = Direction.BUY := by
        simp [aggregate, h1, hm]
      have hcontrib : (aggregate minConf sigs).contributing_signals
          = sigs.filter (fun x => x.direction = Direction.BUY) := by
        simp [aggregate, h1, hm]
      have hpos : 0 < (sigs.filter (fun x => x.direction = Direction.BUY)).length :=
        Nat.lt_of_le_of_lt (Nat.zero_le _) h1
      obtain ⟨x, hxmem⟩ := List.exists_mem_of_length_pos hpos
      have hxs : x ∈ sigs := (List.mem_filter.mp hxmem).1
      have hxd : x.direction = Direction.BUY := by
        have := (List.mem_filter.mp hxmem).2
        simpa using this
      constructor
      · intro _
        rw [hdir]; intro hcon; cases hcon
      · intro _
        refine explanationReasons_ne_nil_of_mem (x := x) ?_ (hnames x hxs)
          (hreasons x hxs (by rw [hxd]; intro hcon; cases hcon))
        rw [hcontrib]; exact hxmem
    · have hdir : (aggregate minConf sigs).direction = Direction.NONE := by
        simp [aggregate, h1, hm]
      have hcontrib : (aggregate minConf sigs).contributing_signals = [] := by
        simp [aggregate, h1, hm]
      simp [explanationReasons, hcontrib, hdir, orderedContributing, priorityOrder]
  · by_cases h2 : voteCount Direction.BUY sigs < voteCount Direction.SELL sigs
    · by_cases hm : minConf ≤ voteCount Direction.SELL sigs
      · have hdir : (aggregate minConf sigs).direction = Direction.SELL := by
          simp [aggregate, h1, h2, hm]
        have hcontrib : (aggregate minConf sigs).contributing_signals
            = sigs.filter (fun x => x.direction = Direction.SELL) := by
          simp [aggregate, h1, h2, hm]
        have hpos : 0 < (sigs.filter (fun x => x.direction = Direction.SELL)).length :=
          Nat.lt_of_le_of_lt (Nat.zero_le _) h2
        obtain ⟨x, hxmem⟩ := List.exists_mem_of_length_pos hpos
        have hxs : x ∈ sigs := (List.mem_filter.mp hxmem).1
        have hxd : x.direction = Direction.SELL := by
          have := (List.mem_filter.mp hxmem).2
          simpa using this
        constructor
        · intro _
          rw [hdir]; intro hcon; cases hcon
        · intro _
          refine explanationReasons_ne_nil_of_mem (x := x) ?_ (hnames x hxs)
            (hreasons x hxs (by rw [hxd]; intro hcon; cases hcon))
          rw [hcontrib]; exact hxmem
      · have hdir : (aggregate minConf sigs).direction = Direction.NONE := by
          simp [aggregate, h1, h2, hm]
        have hcontrib : (aggregate minConf sigs).contributing_signals = [] := by
          simp [aggregate, h1, h2, hm]
        simp [explanationReasons, hcontrib, hdir, orderedContributing, priorityOrder]
    · have hdir : (aggregate minConf sigs).direction = Direction.NONE := by
        simp [aggregate, h1, h2]
      have hcontrib : (aggregate minConf sigs).contributing_signals = [] := by
        simp [aggregate, h1, h2]
      simp [explanationReasons, hcontrib, hdir, orderedContributing, priorityOrder]

/-- Witness for C4: Technical and Trend both vote BUY with one reason
each, minimum confluence 2 — the decision is BUY and the explanation's
reason list is non-empty. -/
theorem explanation_reasons_witness :
    explanationReasons (aggregate 2
        [⟨"Technical", Direction.BUY, 1, ["RSI oversold"], []⟩,
          ⟨"Trend", Direction.BUY, 1, ["EMA stack bullish"], []⟩]) ≠ []
      ↔ (aggregate 2
          [⟨"Technical", Direction.BUY, 1, ["RSI oversold"], []⟩,
            ⟨"Trend", Direction.BUY, 1, ["EMA stack bullish"], []⟩]).direction
          ≠ Direction.NONE :=
  explanation_reasons_nonempty_iff_direction 2
    [⟨"Technical", Direction.BUY, 1, ["RSI oversold"], []⟩,
      ⟨"Trend", Direction.BUY, 1, ["EMA stack bullish"], []⟩]
    (by decide) (by decide)

/-- An EMA value is absent below the seed index or past the history. -/
theorem emaVal_eq_none {p : ℕ} {closes : List ℚ} {i : ℕ}
    (h : p = 0 ∨ i + 1 < p ∨ closes.length ≤ i) : emaVal p closes i = none := by
  unfold emaVal
  rw [if_pos h]

/-- A Wilder-smoothed value is absent below the seed index or past the
series. -/
theorem wilder_eq_none {p : ℕ} {xs : List ℚ} {j : ℕ}
    (h : p = 0 ∨ j + 1 < p ∨ xs.length ≤ j) : wilder p xs j = none := by
  unfold wilder
  rw [if_pos h]

/-- RSI(14) is absent at every index below 14. -/
theorem rsiVal_warmup (closes : List ℚ) (i : ℕ) (hi : i < 14) :
    rsiVal closes i = none := by
  match i with
  | 0 => rfl
  | j + 1 =>
    have hw : wilder 14 (gains closes) j = none := wilder_eq_none (by omega)
    simp [rsiVal, hw]

/-- With fewer than 26 candles, the MACD line is absent below index 26. -/
theorem macdVal_warmup (closes : List ℚ) (h : closes.length < 26)
    (i : ℕ) (hi : i < 26) : macdVal closes i = none := by
  have h26 : emaVal 26 closes i = none := emaVal_eq_none (by omega)
  unfold macdVal
  rw [h26]
  cases emaVal 12 closes i <;> rfl

/-- The MACD signal line is absent at every index below 26. -/
theorem signalVal_warmup (closes : List ℚ) (i : ℕ) (hi : i < 26) :
    signalVal closes i = none := by
  by_cases h : i < macdStart
  · simp [signalVal, h]
  · have h9 : emaVal 9 (macdLine closes) (i - macdStart) = none := by
      refine emaVal_eq_none (Or.inr (Or.inl ?_))
      simp only [macdStart] at *
      omega
    simp [signalVal, h, h9]

/-- With fewer than 26 candles, the MACD histogram is absent below
index 26. -/
theorem histVal_warmup (closes : List ℚ) (h : closes.length < 26)
    (i : ℕ) (hi : i < 26) : histVal closes i = none := by
  have hm : macdVal closes i = none := macdVal_warmup closes h i hi
  unfold histVal
  rw [hm]

/-- The values `addLine` plots are exactly the non-null entries of the
overlay series (truncated to the timestamps' length), in order. -/
theorem plotPoints_map_snd (ts : List ℚ) (vs : List (Option ℚ)) :
    (plotPoints ts vs).map Prod.snd = (vs.take ts.length).filterMap id := by
  induction ts generalizing vs with
  | nil => simp [plotPoints]
  | cons t ts ih =>
    cases vs with
    | nil => simpa [plotPoints] using ih []
    | cons v vs =>
      cases v with
      | none => simpa [plotPoints] using ih vs
      | some x => simpa [plotPoints] using ih vs

/-- Every plotted value stems from a non-null entry of the series. -/
theorem mem_plotPoints {t v : ℚ} : ∀ {ts : List ℚ} {vs : List (Option ℚ)},
    (t, v) ∈ plotPoints ts vs → some v ∈ vs := by
  intro ts
  induction ts with
  | nil => intro vs h; simp [plotPoints] at h
  | cons t' ts ih =>
    intro vs h
    cases vs with
    | nil => exact absurd (ih h) (by simp)
    | cons w vs =>
      cases w with
      | none => exact List.mem_cons_of_mem _ (ih h)
      | some x =>
        rcases List.mem_cons.mp h with heq | hmem
        · cases heq
          exact List.mem_cons_self _ _
        · exact List.mem_cons_of_mem _ (ih hmem)

/-- An all-null overlay series plots nothing (and `addLine` then returns
before creating a series). -/
theorem plotPoints_eq_nil_of_all_none (ts : List ℚ) (vs : List (Option ℚ))
    (h : ∀ x ∈ vs, x = none) : plotPoints ts vs = [] := by
  have h2 := plotPoints_map_snd ts vs
  have h3 : (vs.take ts.length).filterMap id = [] := by
    rw [List.filterMap_eq_nil_iff]
    intro a ha
    exact h a (List.mem_of_mem_take ha)
  rw [h3] at h2
  exact List.map_eq_nil_iff.mp h2

/-- The close series is as long as the history. -/
theorem length_closesOf (cs : List Candle) : (closesOf cs).length = cs.length :=
  List.length_map _ _

/-- C5: when the candle history is shorter than an indicator's warm-up
period, that indicator's value is `none` at every index below the
period — for EMA(p), RSI(14), MACD line/signal/histogram (26), ADX(28)
and the Bollinger bands (20) — with no exception anywhere (all
embedded functions are total); and the chart overlay renderer plots
exactly the non-null entries, so all-null series plot nothing. -/
theorem indicator_warmup_absent_overlay_safe (sqrtFn : ℚ → ℚ) (cs : List Candle) :
    (∀ p i, cs.length < p → i < p → emaVal p (closesOf cs) i = none)
      ∧ (cs.length < 14 → ∀ i, i < 14 → rsiVal (closesOf cs) i = none)
      ∧ (cs.length < 26 → ∀ i, i < 26 → macdVal (closesOf cs) i = none)
      ∧ (cs.length < 26 → ∀ i, i < 26 → signalVal (closesOf cs) i = none)
      ∧ (cs.length < 26 → ∀ i, i < 26 → histVal (closesOf cs) i = none)
      ∧ (cs.length < 28 → ∀ i, i < 28 → adxVal cs i = none)
      ∧ (cs.length < 20 → ∀ i, i < 20 → bbMiddle (closesOf cs) i = none)
      ∧ (cs.length < 20 → ∀ i, i < 20 → bbUpper sqrtFn (closesOf cs) i = none)
      ∧ (cs.length < 20 → ∀ i, i < 20 → bbLower sqrtFn (closesOf cs) i = none)
      ∧ (∀ (ts : List ℚ) (vs : List (Option ℚ)),
          (plotPoints ts vs).map Prod.snd = (vs.take ts.length).filterMap id)
      ∧ (∀ (ts : List ℚ) (vs : List (Option ℚ)) (tv : ℚ × ℚ),
          tv ∈ plotPoints ts vs → some tv.2 ∈ vs)
      ∧ (∀ (ts : List ℚ) (vs : List (Option ℚ)),
          (∀ x ∈ vs, x = none) → plotPoints ts vs = []) := by
  have hlen : (closesOf cs).length = cs.length := length_closesOf cs
  refine ⟨?_, ?_, ?_, ?_, ?_, ?_, ?_, ?_, ?_, plotPoints_map_snd,
    fun ts vs tv h => mem_plotPoints h, plotPoints_eq_nil_of_all_none⟩
  · intro p i hp hi
    exact emaVal_eq_none (by omega)
  · intro _ i hi
    exact rsiVal_warmup _ i hi
  · intro h i hi
    exact macdVal_warmup _ (by omega) i hi
  · intro _ i hi
    exact signalVal_warmup _ i hi
  · intro h i hi
    exact histVal_warmup _ (by omega) i hi
  · intro _ i hi
    unfold adxVal
    rw [if_pos hi]
  · intro h i hi
    unfold bbMiddle
    rw [if_pos (by omega)]
  · intro h i hi
    unfold bbUpper
    rw [if_pos (by omega)]
  · intro h i hi
    unfold bbLower
    rw [if_pos (by omega)]

/-- Witness for C5: on a 50-candle history every `ema_200` value below
index 200 is absent (spec §8 scenario 3); on a 10-candle history RSI,
MACD, ADX and the Bollinger middle band are absent below their warm-ups;
and an all-null overlay series plots no points. -/
theorem indicator_warmup_witness :
    emaVal 200 (closesOf demoHistory) 49 = none
      ∧ rsiVal (closesOf demoShort) 13 = none
      ∧ macdVal (closesOf demoShort) 25 = none
      ∧ adxVal demoShort 27 = none
      ∧ bbMiddle (closesOf demoShort) 19 = none
      ∧ plotPoints [1, 2, 3] [none, none, none] = [] := by
  have h50 := indicator_warmup_absent_overlay_safe (fun q => q) demoHistory
  have h10 := indicator_warmup_absent_overlay_safe (fun q => q) demoShort
  have hl50 : demoHistory.length = 50 := List.length_replicate _ _
  have hl10 : demoShort.length = 10 := List.length_replicate _ _
  refine ⟨h50.1 200 49 (by omega) (by omega), ?_, ?_, ?_, ?_, ?_⟩
  · exact h10.2.1 (by omega) 13 (by omega)
  · exact h10.2.2.1 (by omega) 25 (by omega)
  · exact h10.2.2.2.2.2.1 (by omega) 27 (by omega)
  · exact h10.2.2.2.2.2.2.1 (by omega) 19 (by omega)
  · exact h10.2.2.2.2.2.2.2.2.2.2.2 [1, 2, 3] [none, none, none] (by decide)

end CryptoMentor
